import Mathlib

/-!
Verification of the story-to-reel scene-synchronization and composition
pipeline (`src/app`), as a shallow embedding in Lean 4.

Conventions of the embedding:
* Python floats are modelled as exact rationals (`ℚ`); the numeric literals
  `0.1`, `3.0`, `137.5` of the source become the rationals `1/10`, `3`,
  `275/2`.
* `json.loads` output for scalar fields is modelled by `RawVal`
  (number, string, boolean, null); an absent key is `Option.none` one
  level up.
* Fallible Python code (exceptions) is modelled with `Except`; the
  distinct exception messages of the source become distinct error
  constructors.
-/

set_option maxHeartbeats 1000000

namespace StoryToReel

/-- Scalar JSON value as produced by `json.loads` for a field of the raw
structured document. -/
inductive RawVal where
  | jnum (q : ℚ)
  | jstr (s : String)
  | jbool (b : Bool)
  | jnull
deriving DecidableEq

/-- Numeric value of a list of decimal digit characters. -/
def digitsToNat (cs : List Char) : Nat :=
  cs.foldl (fun a c => a * 10 + (c.toNat - 48)) 0

/-- Optional sign prefix of a Python float literal; returns the sign and
the remaining characters. -/
def parseSign : List Char → ℚ × List Char
  | '-' :: rest => (-1, rest)
  | '+' :: rest => (1, rest)
  | cs => (1, cs)

/-- Mantissa of a Python float literal: digits with an optional decimal
point (`"1"`, `"1.5"`, `"1."`, `".5"`). -/
def parseMantissa (cs : List Char) : Option ℚ :=
  let intPart := cs.takeWhile (·.isDigit)
  let rest := cs.dropWhile (·.isDigit)
  match rest with
  | [] => if intPart = [] then none else some (digitsToNat intPart)
  | '.' :: frac =>
      if frac.all (·.isDigit) ∧ (intPart ≠ [] ∨ frac ≠ []) then
        some ((digitsToNat intPart : ℚ) + (digitsToNat frac : ℚ) / 10 ^ frac.length)
      else none
  | _ => none

/-- Model of CPython `float(s)` on a string: sign, mantissa, optional
decimal exponent.  The exotic accepted forms (`"inf"`, `"nan"`, digit
underscores, surrounding whitespace) are outside the model; every string
the claims exercise is covered. -/
def pyStrToFloat (s : String) : Option ℚ :=
  let cs := s.toList
  let mant := cs.takeWhile (fun c => !(c == 'e' || c == 'E'))
  let rest := cs.dropWhile (fun c => !(c == 'e' || c == 'E'))
  let ms := parseSign mant
  match parseMantissa ms.2, rest with
  | some m, [] => some (ms.1 * m)
  | some m, _ :: ecs =>
      let es := parseSign ecs
      if es.2 ≠ [] ∧ es.2.all (·.isDigit) then
        if es.1 = 1 then some (ms.1 * m * 10 ^ digitsToNat es.2)
        else some (ms.1 * m / 10 ^ digitsToNat es.2)
      else none
  | none, _ => none

/-- Model of Python `float(x)` applied to a JSON scalar: numbers pass
through, booleans become 0/1, numeric strings are parsed, everything
else raises (`none`). -/
def pyFloat : RawVal → Option ℚ
  | .jnum q => some q
  | .jbool b => some (if b then 1 else 0)
  | .jstr s => pyStrToFloat s
  | .jnull => none

/-- One raw scene entry of the parsed document (`script_data["scenes"][i]`).
`none` at the outer level means the key is absent.  For
`background_color` the inner `Option` distinguishes an explicit JSON
`null` (`some none`) from a string value (`some (some s)`). -/
structure RawScene where
  scene_number : Option Int := none
  dialogue : Option String := none
  display_text : Option String := none
  duration_seconds : Option RawVal := none
  background_color : Option (Option String) := none
  background_image_url : Option String := none
deriving DecidableEq

/-- The parsed raw structured document (`script_data`). -/
structure RawDoc where
  title : Option String := none
  scenes : Option (List RawScene) := none
  total_duration_seconds : Option RawVal := none
deriving DecidableEq

/-- Mirror of `app.models.video_script.Scene` (pydantic model).  The
field constraint `duration_seconds ≥ 0.1` is enforced at construction
time by `buildScene`. -/
structure Scene where
  scene_number : Int
  dialogue : String
  display_text : String
  duration_seconds : ℚ
  background_color : Option String
  background_image_url : Option String
deriving DecidableEq

/-- Mirror of `app.models.video_script.VideoScript`.  The constraints
`scenes` nonempty and `total_duration_seconds ≥ 0.1` are enforced at
construction time inside `generate`. -/
structure VideoScript where
  title : String
  scenes : List Scene
  total_duration_seconds : ℚ
deriving DecidableEq

/-- Sum of the scene durations of a scene list
(`sum(scene.duration_seconds for scene in scenes)`). -/
def sceneDurationSum (l : List Scene) : ℚ :=
  (l.map (·.duration_seconds)).sum

/-- Mirror of `VideoScript.validate_duration`: the declared total matches
the recomputed sum within the 0.1 tolerance. -/
def VideoScript.validate_duration (vs : VideoScript) : Bool :=
  decide (|vs.total_duration_seconds - sceneDurationSum vs.scenes| < 1/10)

/-- The distinct failure modes of `ScriptGenerator.generate`; each
constructor corresponds to one distinct `ValueError` message of the
source (the last three surface through pydantic's `ValidationError`,
wrapped into `ValueError("Script generation failed: ...")`). -/
inductive GenError where
  | missingScenes
  | missingTitle
  | badDurationValue
  | sceneOutOfRange
  | badTotalValue
  | emptyScenes
  | totalOutOfRange
deriving DecidableEq

/-- Construction of one `Scene` from the raw entry at 0-based position
`idx`, mirroring the comprehension body of `ScriptGenerator.generate`
(lines 52-59) together with pydantic's `ge=0.1` check on
`duration_seconds`. -/
def buildScene (idx : Nat) (e : RawScene) : Except GenError Scene :=
  match pyFloat (e.duration_seconds.getD (.jnum 3)) with
  | none => .error .badDurationValue
  | some d =>
      if d < 1/10 then .error .sceneOutOfRange
      else .ok {
        scene_number := e.scene_number.getD ((idx : Int) + 1),
        dialogue := e.dialogue.getD "",
        display_text := e.display_text.getD (e.dialogue.getD ""),
        duration_seconds := d,
        background_color := (e.background_color.getD (some "#000000")),
        background_image_url := e.background_image_url }

/-- The scene-list comprehension of `ScriptGenerator.generate`
(`enumerate` starting at index `k`); the first failing entry aborts the
whole construction, as the first raised exception does in Python. -/
def buildScenes : Nat → List RawScene → Except GenError (List Scene)
  | _, [] => .ok []
  | k, e :: rest =>
      match buildScene k e with
      | .error err => .error err
      | .ok s =>
          match buildScenes (k + 1) rest with
          | .error err => .error err
          | .ok l => .ok (s :: l)

/-- Mirror of `ScriptGenerator.generate` (the Script Reconciler) after
JSON parsing: key checks, scene construction, total-duration default and
coercion, pydantic validation of `VideoScript`, and the
`validate_duration` repair that overwrites a mismatched declared total
with the recomputed scene sum. -/
def generate (doc : RawDoc) : Except GenError VideoScript :=
  match doc.scenes with
  | none => .error .missingScenes
  | some rawScenes =>
    match doc.title with
    | none => .error .missingTitle
    | some title =>
      match buildScenes 0 rawScenes with
      | .error err => .error err
      | .ok scenes =>
        let calcTotal := sceneDurationSum scenes
        match pyFloat (doc.total_duration_seconds.getD (.jnum calcTotal)) with
        | none => .error .badTotalValue
        | some total =>
          if scenes = [] then .error .emptyScenes
          else if total < 1/10 then .error .totalOutOfRange
          else
            let vs : VideoScript := ⟨title, scenes, total⟩
            .ok (if vs.validate_duration then vs
                 else { vs with total_duration_seconds := calcTotal })

/-! ## Scene Compositor (`MoviePyVideoComposer`)

Clips are modelled by their durations; `concatenate_videoclips` is the
external concatenation capability, whose output duration is the sum of
the input durations, and `clip.subclipped(0, t)` keeps the first `t`
seconds of a clip. -/

/-- Duration of `clip.subclipped(0, t)` for a clip of duration `len`
(the source only calls it with `t ≤ len`). -/
def subclipLen (len t : ℚ) : ℚ := min t len

/-- The audio time-matching of `MoviePyVideoComposer._create_scene_clip`
(lines 152-159): duration of the audio track attached to a scene of
duration `d` from an audio clip of duration `a`.  Python's `int()`
truncates toward zero, which on the positive quotient `d / a` is the
floor. -/
def audioMatchedLength (a d : ℚ) : ℚ :=
  if a > d then subclipLen a d
  else if a < d then
    subclipLen (((⌊d / a⌋ + 1 : ℤ) : ℚ) * a) d
  else a

/-- Scene Asset Set key: `"bg_{n}"` or `"audio_{n}"` in the `assets`
dictionary of `generate_video_from_text`. -/
inductive AssetKey where
  | bg (n : ℤ)
  | audio (n : ℤ)
deriving DecidableEq

/-- Outcome of the external asset capabilities for each scene number:
whether `asset_manager.get_background_image` and
`asset_manager.generate_audio` succeed. -/
structure Providers where
  bgOk : ℤ → Bool
  audioOk : ℤ → Bool

/-- Result of the binding loop: the `assets` mapping (in insertion
order) and the scene numbers whose audio failure was reported as a
warning. -/
structure BindResult where
  assets : List AssetKey
  warnings : List ℤ
deriving DecidableEq

/-- The per-scene asset loop of `generate_video_from_text` (Step 2,
lines 79-110): a background failure raises at once with the scene
number (RuntimeError), an audio failure only records a warning and the
loop continues without an audio entry for that scene. -/
def bindAssets (p : Providers) : List Scene → Except ℤ BindResult
  | [] => .ok ⟨[], []⟩
  | s :: rest =>
      if p.bgOk s.scene_number then
        match bindAssets p rest with
        | .error n => .error n
        | .ok r =>
            if p.audioOk s.scene_number then
              .ok ⟨.bg s.scene_number :: .audio s.scene_number :: r.assets, r.warnings⟩
            else
              .ok ⟨.bg s.scene_number :: r.assets, s.scene_number :: r.warnings⟩
      else .error s.scene_number

/-- The Compositor's Scene Unit: one composited clip — its scene
number, its exact visual duration, and the duration of the attached
audio track (`none` = silent). -/
structure SceneUnit where
  sceneNumber : ℤ
  duration : ℚ
  audio : Option ℚ
deriving DecidableEq

/-- Failure modes of `MoviePyVideoComposer.compose`: the `ValueError`
of line 134 (missing background asset) and of line 93 (no clips). -/
inductive ComposeError where
  | missingBackground (n : ℤ)
  | noClips
deriving DecidableEq

/-- Mirror of `MoviePyVideoComposer._create_scene_clip`: the background
clip (mandatory, keyed `bg_{n}`) is held for exactly
`scene.duration_seconds`; the subtitle overlay has the same duration, so
the composite's duration is the scene duration; the audio track, when
its key is bound, is time-matched by `audioMatchedLength`
(`audioLen n` is the duration of the audio file bound for scene `n`). -/
def createSceneClip (audioLen : ℤ → ℚ) (assets : List AssetKey) (s : Scene) :
    Except ComposeError SceneUnit :=
  if AssetKey.bg s.scene_number ∈ assets then
    .ok { sceneNumber := s.scene_number,
          duration := s.duration_seconds,
          audio :=
            if AssetKey.audio s.scene_number ∈ assets then
              some (audioMatchedLength (audioLen s.scene_number) s.duration_seconds)
            else none }
  else .error (.missingBackground s.scene_number)

/-- The per-scene clip loop of `MoviePyVideoComposer.compose`
(lines 87-89); the first failing scene aborts, as its exception does. -/
def buildClips (audioLen : ℤ → ℚ) (assets : List AssetKey) :
    List Scene → Except ComposeError (List SceneUnit)
  | [] => .ok []
  | s :: rest =>
      match createSceneClip audioLen assets s with
      | .error e => .error e
      | .ok u =>
          match buildClips audioLen assets rest with
          | .error e => .error e
          | .ok l => .ok (u :: l)

/-- The assembled timeline: the scene units in order and the total
duration of their concatenation (the render request submitted to
`write_videofile`). -/
structure Timeline where
  units : List SceneUnit
  totalDuration : ℚ
deriving DecidableEq

/-- The Timeline Assembler step of `MoviePyVideoComposer.compose`
(lines 92-95): zero clips raise `ValueError` ("No video clips generated
from script"); otherwise `concatenate_videoclips` joins the clips in
order with no retiming, so the total duration is the sum. -/
def assembleTimeline (units : List SceneUnit) : Except ComposeError Timeline :=
  if units = [] then .error .noClips
  else .ok ⟨units, (units.map (·.duration)).sum⟩

/-- Mirror of `MoviePyVideoComposer.compose`: build one clip per scene,
then assemble the timeline. -/
def compose (audioLen : ℤ → ℚ) (script : VideoScript) (assets : List AssetKey) :
    Except ComposeError Timeline :=
  match buildClips audioLen assets script.scenes with
  | .error e => .error e
  | .ok clips => assembleTimeline clips

/-! ## Scene Asset Binder color derivation (`SimpleAssetManager`) -/

/-- Python's `%` on floats with a positive modulus:
`x - y * floor(x / y)`. -/
def qmod (x y : ℚ) : ℚ := x - y * ⌊x / y⌋

/-- Mirror of `colorsys._v` (the HLS helper): the hue argument is taken
mod 1 and the value is piecewise linear (the float constants
`ONE_THIRD`, `ONE_SIXTH`, `TWO_THIRD` of `colorsys` become exact
rationals). -/
def hlsV (m1 m2 hue : ℚ) : ℚ :=
  let h := qmod hue 1
  if h < 1/6 then m1 + (m2 - m1) * h * 6
  else if h < 1/2 then m2
  else if h < 2/3 then m1 + (m2 - m1) * (2/3 - h) * 6
  else m1

/-- Mirror of `colorsys.hls_to_rgb`. -/
def hls_to_rgb (h l s : ℚ) : ℚ × ℚ × ℚ :=
  if s = 0 then (l, l, l)
  else
    let m2 := if l ≤ 1/2 then l * (1 + s) else l + s - l * s
    let m1 := 2 * l - m2
    (hlsV m1 m2 (h + 1/3), hlsV m1 m2 h, hlsV m1 m2 (h - 1/3))

/-- The golden-angle fallback color of
`SimpleAssetManager.get_background_image` (lines 86-90):
`hue = (scene_number * 137.5) % 360 / 360`, saturation 0.6,
lightness 0.3, each channel quantized by `int(c * 255)` (truncation
toward zero = floor, the channels being nonnegative). -/
def goldenBgColor (scene_number : ℤ) : ℤ × ℤ × ℤ :=
  let hue := qmod ((scene_number : ℚ) * (275/2)) 360 / 360
  let rgb := hls_to_rgb hue (3/10) (6/10)
  (⌊rgb.1 * 255⌋, ⌊rgb.2.1 * 255⌋, ⌊rgb.2.2 * 255⌋)

/-- Value of a hexadecimal digit character, as accepted by
`int(_, 16)`. -/
def hexDigitVal (c : Char) : Option Nat :=
  if c.isDigit then some (c.toNat - 48)
  else if 'a' ≤ c ∧ c ≤ 'f' then some (c.toNat - 87)
  else if 'A' ≤ c ∧ c ≤ 'F' then some (c.toNat - 55)
  else none

/-- Mirror of `SimpleAssetManager._hex_to_rgb`: strip leading `#`,
require exactly six hex digits, parse channel pairs; `none` is the
`ValueError("Invalid hex color: ...")`. -/
def hexToRgb (hex_color : String) : Option (ℤ × ℤ × ℤ) :=
  match hex_color.toList.dropWhile (· == '#') with
  | [a, b, c, d, e, f] =>
      match hexDigitVal a, hexDigitVal b, hexDigitVal c,
            hexDigitVal d, hexDigitVal e, hexDigitVal f with
      | some x1, some x2, some x3, some x4, some x5, some x6 =>
          some (((16 * x1 + x2 : ℕ) : ℤ), ((16 * x3 + x4 : ℕ) : ℤ),
                ((16 * x5 + x6 : ℕ) : ℤ))
      | _, _, _, _, _, _ => none
  | _ => none

/-- Python truthiness of the `color: str | None` argument: `None` and
`""` are falsy. -/
def pyTruthy : Option String → Bool
  | none => false
  | some s => !s.isEmpty

/-- The color determination of
`SimpleAssetManager.get_background_image` (lines 82-90): a truthy
`color` goes through `_hex_to_rgb` (`none` = the wrapped `ValueError`),
otherwise the golden-angle color of the scene number is used. -/
def determineBgColor (scene_number : ℤ) (color : Option String) : Option (ℤ × ℤ × ℤ) :=
  if pyTruthy color then hexToRgb (color.getD "")
  else some (goldenBgColor scene_number)

/-! ## Serialization of a reconciled script back to a raw document
(for the idempotence property) -/

/-- Serialize a built `Scene` back to a raw scene entry: every field of
the scene appears explicitly in the document. -/
def sceneToRaw (s : Scene) : RawScene :=
  { scene_number := some s.scene_number,
    dialogue := some s.dialogue,
    display_text := some s.display_text,
    duration_seconds := some (.jnum s.duration_seconds),
    background_color := some s.background_color,
    background_image_url := s.background_image_url }

/-- Serialize a `VideoScript` back to a raw structured document. -/
def scriptToRaw (vs : VideoScript) : RawDoc :=
  { title := some vs.title,
    scenes := some (vs.scenes.map sceneToRaw),
    total_duration_seconds := some (.jnum vs.total_duration_seconds) }

/-! ## Integer mirror of the golden-angle color (proof infrastructure)

`goldenBgColor` computes with rationals, which the kernel cannot
evaluate (`decide` gets stuck on `Rat` normalization).  For the
finite distinctness check we mirror the quantized channel value by pure
integer arithmetic and prove the two agree. -/

/-- Quantized channel value `⌊255 * hlsV (3/25) (12/25) (r/144)⌋` for a
hue residue `r ∈ [0, 144)`, in integer arithmetic (for lightness 0.3
and saturation 0.6 the source's `m2` is 12/25 and `m1` is 3/25). -/
def greenQ (r : ℤ) : ℤ :=
  if r < 24 then (1224 + 153 * r) / 40
  else if r < 72 then 122
  else if r < 96 then (15912 - 153 * r) / 40
  else 30

/-- Integer mirror of `goldenBgColor` on the hue residue
`m = (55 * scene_number) % 144`. -/
def colorQ (m : ℤ) : ℤ × ℤ × ℤ :=
  (greenQ ((m + 48) % 144), greenQ m, greenQ ((m + 96) % 144))

/-! ## Concrete inputs for witnesses and counterexamples -/

/-- Raw document with a declared total (100) far from the scene sum
(2 + 3.5 = 5.5). -/
def docMismatch : RawDoc :=
  { title := some "T",
    scenes := some [ { dialogue := some "A", duration_seconds := some (.jnum 2) },
                     { dialogue := some "B", duration_seconds := some (.jnum (7/2)) } ],
    total_duration_seconds := some (.jnum 100) }

/-- The script the Reconciler produces from `docMismatch`. -/
def scriptMismatch : VideoScript :=
  { title := "T",
    scenes := [ { scene_number := 1, dialogue := "A", display_text := "A",
                  duration_seconds := 2, background_color := some "#000000",
                  background_image_url := none },
                { scene_number := 2, dialogue := "B", display_text := "B",
                  duration_seconds := 7/2, background_color := some "#000000",
                  background_image_url := none } ],
    total_duration_seconds := 11/2 }

/-- Sparse raw document: two scenes carrying only a dialogue. -/
def docSparse : RawDoc :=
  { title := some "T",
    scenes := some [ { dialogue := some "A" }, { dialogue := some "B" } ] }

/-- The script the Reconciler produces from `docSparse`. -/
def scriptSparse : VideoScript :=
  { title := "T",
    scenes := [ { scene_number := 1, dialogue := "A", display_text := "A",
                  duration_seconds := 3, background_color := some "#000000",
                  background_image_url := none },
                { scene_number := 2, dialogue := "B", display_text := "B",
                  duration_seconds := 3, background_color := some "#000000",
                  background_image_url := none } ],
    total_duration_seconds := 6 }

/-- Raw document whose only scene carries the non-numeric duration
value `"fast"`. -/
def docBadDuration : RawDoc :=
  { title := some "T",
    scenes := some [ { dialogue := some "A", duration_seconds := some (.jstr "fast") } ] }

/-- Raw document whose only scene carries the numeric duration 0.05,
below the 0.1 bound. -/
def docSmallDuration : RawDoc :=
  { title := some "T",
    scenes := some [ { dialogue := some "A", duration_seconds := some (.jnum (1/20)) } ] }

/-- Two concrete scenes for the binding and assembly witnesses. -/
def sceneW1 : Scene :=
  { scene_number := 1, dialogue := "A", display_text := "A", duration_seconds := 2,
    background_color := some "#000000", background_image_url := none }

/-- Second concrete scene (see `sceneW1`). -/
def sceneW2 : Scene :=
  { scene_number := 2, dialogue := "B", display_text := "B", duration_seconds := 3,
    background_color := none, background_image_url := none }

/-- Providers whose background capability always succeeds and whose
audio capability fails exactly for scene 2. -/
def provAudioFail2 : Providers :=
  { bgOk := fun _ => true, audioOk := fun n => decide (n ≠ 2) }

/-- Providers whose background capability fails exactly for scene 2. -/
def provBgFail2 : Providers :=
  { bgOk := fun n => decide (n ≠ 2), audioOk := fun _ => true }

/-- Closed form of the assets mapping produced by a fully successful
binding loop: one background key per scene, plus an audio key for each
scene whose audio synthesis succeeds (proof infrastructure for
`bindAssets`). -/
def boundAssets (p : Providers) (scenes : List Scene) : List AssetKey :=
  scenes.flatMap (fun s =>
    .bg s.scene_number ::
      (if p.audioOk s.scene_number then [.audio s.scene_number] else []))

/-- Closed form of the warnings emitted by a fully successful binding
loop: the scene numbers whose audio synthesis fails. -/
def audioWarnings (p : Providers) (scenes : List Scene) : List ℤ :=
  (scenes.filter (fun s => !p.audioOk s.scene_number)).map (·.scene_number)

/-! ## Theorems -/

/-- C2: for a bound audio asset of length `a > 0` and a scene duration
`d > 0`, the Compositor's audio time-matching returns a track of length
exactly `d` in all three branches of `audioMatchedLength` (truncation
when `a > d`, looping `⌊d/a⌋ + 1` times then truncation when `a < d`,
identity when `a = d`). -/
theorem audioMatchedLength_eq_duration (a d : ℚ) (ha : 0 < a) (_hd : 0 < d) :
    audioMatchedLength a d = d := by
  unfold audioMatchedLength subclipLen
  split_ifs with h1 h2
  · exact min_eq_left h1.le
  · have hfl : d / a < ((⌊d / a⌋ + 1 : ℤ) : ℚ) := by
      push_cast
      exact Int.lt_floor_add_one _
    have hda : d < ((⌊d / a⌋ + 1 : ℤ) : ℚ) * a := (div_lt_iff₀ ha).mp hfl
    exact min_eq_left hda.le
  · exact le_antisymm (not_lt.mp h1) (not_lt.mp h2)

/-- Witness for C2: audio of length 1.2 against a 3-second scene is
matched to exactly 3 seconds. -/
theorem audioMatchedLength_witness :
    (0:ℚ) < 6/5 ∧ (0:ℚ) < 3 ∧ audioMatchedLength (6/5) 3 = 3 :=
  ⟨by norm_num, by norm_num,
    audioMatchedLength_eq_duration (6/5) 3 (by norm_num) (by norm_num)⟩

/-- C4: the Timeline Assembler keeps a non-empty list of scene units in
order with no retiming — the assembled timeline is exactly the unit
list and its total duration is the sum of the unit durations — and
fails with the empty-timeline error on zero units, emitting no render
request. -/
theorem assembleTimeline_spec (units : List SceneUnit) :
    (units ≠ [] →
      assembleTimeline units = .ok ⟨units, (units.map (·.duration)).sum⟩) ∧
    (units = [] → assembleTimeline units = .error .noClips) := by
  refine ⟨fun h => ?_, fun h => ?_⟩ <;> simp [assembleTimeline, h]

/-- Witness for C4: a singleton unit of duration 2 assembles to a
timeline of total duration 2, and the empty unit list fails. -/
theorem assembleTimeline_witness :
    assembleTimeline [⟨1, 2, none⟩] = .ok ⟨[⟨1, 2, none⟩], 2⟩ ∧
    assembleTimeline ([] : List SceneUnit) = .error .noClips := by
  constructor
  · have h := (assembleTimeline_spec [⟨1, 2, none⟩]).1 (by simp)
    simpa using h
  · exact (assembleTimeline_spec []).2 rfl

/-- Inversion of `buildScene`: what each field of a successfully built
scene is, in terms of the raw entry. -/
theorem buildScene_ok_fields {idx : Nat} {e : RawScene} {s : Scene}
    (h : buildScene idx e = .ok s) :
    s.scene_number = e.scene_number.getD ((idx : ℤ) + 1) ∧
    s.dialogue = e.dialogue.getD "" ∧
    s.display_text = e.display_text.getD (e.dialogue.getD "") ∧
    pyFloat (e.duration_seconds.getD (.jnum 3)) = some s.duration_seconds ∧
    1/10 ≤ s.duration_seconds ∧
    s.background_color = e.background_color.getD (some "#000000") ∧
    s.background_image_url = e.background_image_url := by
  unfold buildScene at h
  split at h
  · cases h
  · split at h
    · cases h
    · rename_i d heq hlt
      injection h with h'
      subst h'
      exact ⟨rfl, rfl, rfl, heq, not_lt.mp hlt, rfl, rfl⟩

/-- Inversion of `buildScenes`: a successful build has one scene per
raw entry, each built by `buildScene` at its position. -/
theorem buildScenes_ok_corr (raw : List RawScene) :
    ∀ (k : Nat) (l : List Scene), buildScenes k raw = .ok l →
      l.length = raw.length ∧
      ∀ i (hi : i < raw.length) (hl : i < l.length),
        buildScene (k + i) (raw.get ⟨i, hi⟩) = .ok (l.get ⟨i, hl⟩) := by
  induction raw with
  | nil =>
      intro k l h
      unfold buildScenes at h
      injection h with h'
      subst h'
      exact ⟨rfl, fun i hi _ => absurd hi (Nat.not_lt_zero i)⟩
  | cons e rest ih =>
      intro k l h
      unfold buildScenes at h
      split at h
      · cases h
      · rename_i s hb
        split at h
        · cases h
        · rename_i tl hr
          injection h with h'
          subst h'
          obtain ⟨hlen, hget⟩ := ih (k + 1) tl hr
          refine ⟨by simp [hlen], ?_⟩
          intro i hi hl
          cases i with
          | zero => simpa using hb
          | succ j =>
              have hj : j < rest.length := by simpa using hi
              have hjl : j < tl.length := by simpa using hl
              have hkj : k + (j + 1) = (k + 1) + j := by omega
              rw [hkj]
              simpa using hget j hj hjl

/-- Inversion of `generate`: a successfully reconciled script comes
from present `scenes` and `title` keys, a successful scene build, a
nonempty scene list, a coercible declared total of at least 0.1, and a
final total that is the declared one if within tolerance of the scene
sum and the scene sum otherwise. -/
theorem generate_ok_inv {doc : RawDoc} {vs : VideoScript} (h : generate doc = .ok vs) :
    ∃ raw, doc.scenes = some raw ∧ doc.title = some vs.title ∧
      buildScenes 0 raw = .ok vs.scenes ∧ vs.scenes ≠ [] ∧
      ∃ total,
        pyFloat (doc.total_duration_seconds.getD (.jnum (sceneDurationSum vs.scenes))) = some total ∧
        1/10 ≤ total ∧
        vs.total_duration_seconds =
          (if |total - sceneDurationSum vs.scenes| < 1/10 then total
           else sceneDurationSum vs.scenes) := by
  unfold generate at h
  rcases hs : doc.scenes with _ | raw
  · simp only [hs] at h; cases h
  · simp only [hs] at h
    rcases ht : doc.title with _ | title
    · simp only [ht] at h; cases h
    · simp only [ht] at h
      rcases hb : buildScenes 0 raw with err | scenes
      · simp only [hb] at h; cases h
      · simp only [hb] at h
        rcases hp : pyFloat (doc.total_duration_seconds.getD (.jnum (sceneDurationSum scenes)))
          with _ | total
        · simp only [hp] at h; cases h
        · simp only [hp] at h
          by_cases hne : scenes = []
          · rw [if_pos hne] at h; cases h
          · rw [if_neg hne] at h
            by_cases hto : total < 1/10
            · rw [if_pos hto] at h; cases h
            · rw [if_neg hto] at h
              by_cases hv : (VideoScript.mk title scenes total).validate_duration = true
              · rw [if_pos hv] at h
                injection h with h'
                subst h'
                have hvd : |total - sceneDurationSum scenes| < 1/10 := by
                  simpa [VideoScript.validate_duration] using hv
                exact ⟨raw, rfl, rfl, hb, hne, total, hp, not_lt.mp hto, by rw [if_pos hvd]⟩
              · rw [if_neg hv] at h
                injection h with h'
                subst h'
                have hvd : ¬ |total - sceneDurationSum scenes| < 1/10 := by
                  simpa [VideoScript.validate_duration] using hv
                exact ⟨raw, rfl, rfl, hb, hne, total, hp, not_lt.mp hto, by rw [if_neg hvd]⟩

/-- C1: for every raw document the Reconciler accepts, the returned
total equals the recomputed scene sum whenever the declared total (the
coerced `total_duration_seconds`, defaulting to the scene sum) differs
from that sum by at least 0.1, and equals the declared total when the
difference is below 0.1; consequently every returned script satisfies
the 0.1-tolerance invariant. -/
theorem generate_total_spec (doc : RawDoc) (vs : VideoScript)
    (h : generate doc = .ok vs) :
    (∀ t : ℚ,
      pyFloat (doc.total_duration_seconds.getD (.jnum (sceneDurationSum vs.scenes))) = some t →
      (1/10 ≤ |t - sceneDurationSum vs.scenes| →
          vs.total_duration_seconds = sceneDurationSum vs.scenes) ∧
      (|t - sceneDurationSum vs.scenes| < 1/10 → vs.total_duration_seconds = t)) ∧
    |vs.total_duration_seconds - sceneDurationSum vs.scenes| < 1/10 := by
  obtain ⟨raw, hs, ht, hb, hne, total, hp, hge, htot⟩ := generate_ok_inv h
  constructor
  · intro t hpt
    rw [hp] at hpt
    injection hpt with hpt
    subst hpt
    exact ⟨fun hd => by rw [htot, if_neg (not_lt.mpr hd)],
           fun hd => by rw [htot, if_pos hd]⟩
  · by_cases hd : |total - sceneDurationSum vs.scenes| < 1/10
    · rw [htot, if_pos hd]; exact hd
    · rw [htot, if_neg hd, sub_self, abs_zero]; norm_num

/-- Witness for C1: `docMismatch` declares 100 against a scene sum of
5.5, and the reconciled total is the scene sum. -/
theorem generate_total_spec_witness :
    scriptMismatch.total_duration_seconds = sceneDurationSum scriptMismatch.scenes := by
  have hgen : generate docMismatch = .ok scriptMismatch := by
    norm_num [generate, docMismatch, scriptMismatch, buildScenes, buildScene, pyFloat,
      sceneDurationSum, VideoScript.validate_duration, abs_lt, List.cons_ne_nil]
  have hp : pyFloat (docMismatch.total_duration_seconds.getD
      (.jnum (sceneDurationSum scriptMismatch.scenes))) = some 100 := rfl
  refine ((generate_total_spec docMismatch scriptMismatch hgen).1 100 hp).1 ?_
  have hsum : sceneDurationSum scriptMismatch.scenes = 11/2 := by
    norm_num [sceneDurationSum, scriptMismatch]
  rw [hsum, show |(100:ℚ) - 11/2| = 189/2 by rw [abs_of_nonneg] <;> norm_num]
  norm_num

/-- C6: the Reconciler takes `scene_number` from the raw entry when
present and the 1-based position otherwise, so a document whose entries
all omit `scene_number` yields scenes numbered `1..N` with no gaps and
no duplicates. -/
theorem generate_scene_numbering (doc : RawDoc) (vs : VideoScript) (raw : List RawScene)
    (h : generate doc = .ok vs) (hs : doc.scenes = some raw) :
    vs.scenes.length = raw.length ∧
    (∀ i (hi : i < raw.length) (hl : i < vs.scenes.length),
      (vs.scenes.get ⟨i, hl⟩).scene_number =
        ((raw.get ⟨i, hi⟩).scene_number).getD ((i : ℤ) + 1)) ∧
    ((∀ e ∈ raw, e.scene_number = none) →
      vs.scenes.map (·.scene_number) =
        (List.range raw.length).map (fun i : ℕ => (i : ℤ) + 1)) := by
  obtain ⟨raw', hs', _, hb, _, _⟩ := generate_ok_inv h
  rw [hs] at hs'
  injection hs' with hs'
  subst hs'
  obtain ⟨hlen, hget⟩ := buildScenes_ok_corr _ 0 _ hb
  refine ⟨hlen, ?_, ?_⟩
  · intro i hi hl
    have hf := buildScene_ok_fields (hget i hi hl)
    simpa using hf.1
  · intro hnone
    refine List.ext_get (by simp [hlen]) ?_
    intro i h1 h2
    simp only [List.get_map, List.get_range]
    have hl : i < vs.scenes.length := by simpa using h1
    have hi : i < raw.length := by rw [← hlen]; exact hl
    have hf := buildScene_ok_fields (hget i hi hl)
    rw [hf.1, hnone (raw.get ⟨i, hi⟩) (List.get_mem _ _ _)]
    simp

/-- Witness for C6: the sparse two-scene document yields scenes
numbered 1, 2. -/
theorem generate_scene_numbering_witness :
    scriptSparse.scenes.map (·.scene_number) = [1, 2] := by
  have hgen : generate docSparse = .ok scriptSparse := by
    norm_num [generate, docSparse, scriptSparse, buildScenes, buildScene, pyFloat,
      sceneDurationSum, VideoScript.validate_duration, abs_lt, List.cons_ne_nil]
  have h2 := (generate_scene_numbering docSparse scriptSparse
      [{ dialogue := some "A" }, { dialogue := some "B" }] hgen rfl).2.2 ?_
  · rw [h2]
    decide
  · intro e he
    rcases List.mem_cons.mp he with rfl | he'
    · rfl
    · rcases List.mem_cons.mp he' with rfl | he''
      · rfl
      · cases he''

/-- Inversion of `buildScene` on failure: the only scene-level errors
are a non-coercible duration and an out-of-range duration. -/
theorem buildScene_error_cases {idx : Nat} {e : RawScene} {err : GenError}
    (h : buildScene idx e = .error err) :
    err = .badDurationValue ∨ err = .sceneOutOfRange := by
  unfold buildScene at h
  split at h
  · injection h with h'
    exact .inl h'.symm
  · split at h
    · injection h with h'
      exact .inr h'.symm
    · cases h

/-- Inversion of `buildScenes` on failure (see
`buildScene_error_cases`). -/
theorem buildScenes_error_cases (raw : List RawScene) :
    ∀ (k : Nat) (err : GenError), buildScenes k raw = .error err →
      err = .badDurationValue ∨ err = .sceneOutOfRange := by
  induction raw with
  | nil => intro k err h; cases h
  | cons e rest ih =>
      intro k err h
      unfold buildScenes at h
      split at h
      · rename_i he
        injection h with h'
        subst h'
        exact buildScene_error_cases he
      · rename_i s hb
        split at h
        · rename_i e2 hr
          injection h with h'
          subst h'
          exact ih (k + 1) _ hr
        · cases h

/-- C8: the Reconciler fails with the missing-key error
(`MalformedScriptError`) exactly when the parsed document lacks the
`scenes` key or the `title` key; when both keys are present this
particular failure never occurs. -/
theorem generate_malformed_iff (doc : RawDoc) :
    (generate doc = .error .missingScenes ∨ generate doc = .error .missingTitle) ↔
      (doc.scenes = none ∨ doc.title = none) := by
  constructor
  · intro h
    rcases hs : doc.scenes with _ | raw
    · exact .inl rfl
    · rcases ht : doc.title with _ | title
      · exact .inr rfl
      · exfalso
        unfold generate at h
        simp only [hs, ht] at h
        rcases hb : buildScenes 0 raw with err | scenes
        · simp only [hb] at h
          rcases buildScenes_error_cases raw 0 err hb with he | he <;> subst he <;> simp at h
        · simp only [hb] at h
          rcases hp : pyFloat (doc.total_duration_seconds.getD
              (.jnum (sceneDurationSum scenes))) with _ | total
          · simp only [hp] at h
            simp at h
          · simp only [hp] at h
            by_cases hne : scenes = []
            · rw [if_pos hne] at h; simp at h
            · rw [if_neg hne] at h
              by_cases hto : total < 1/10
              · rw [if_pos hto] at h; simp at h
              · rw [if_neg hto] at h; simp at h
  · intro h
    rcases h with h | h
    · unfold generate
      simp only [h]
      exact .inl trivial
    · rcases hs : doc.scenes with _ | raw
      · unfold generate
        simp only [hs]
        exact .inl trivial
      · unfold generate
        simp only [hs, h]
        exact .inr trivial

/-- C10: a raw document containing a scene entry with a numeric
duration below 0.1 is rejected by the Reconciler with an error — the
value is neither clamped nor defaulted, and no partial script is
returned. -/
theorem generate_small_duration_rejected (doc : RawDoc) (raw : List RawScene)
    (hs : doc.scenes = some raw)
    (hbad : ∃ e ∈ raw, ∃ q : ℚ, e.duration_seconds = some (.jnum q) ∧ q < 1/10) :
    ∃ err, generate doc = .error err := by
  rcases hg : generate doc with err | vs
  · exact ⟨err, rfl⟩
  · exfalso
    obtain ⟨raw', hs', _, hb, _, _⟩ := generate_ok_inv hg
    rw [hs] at hs'
    injection hs' with hs'
    subst hs'
    obtain ⟨e, he, q, hq, hlt⟩ := hbad
    obtain ⟨n, hn⟩ := List.mem_iff_get.mp he
    obtain ⟨hlen, hget⟩ := buildScenes_ok_corr _ 0 _ hb
    have hl2 : n.1 < vs.scenes.length := by rw [hlen]; exact n.2
    have hf := buildScene_ok_fields (hget n.1 n.2 hl2)
    rw [show raw.get ⟨n.1, n.2⟩ = e from hn] at hf
    have hpy := hf.2.2.2.1
    rw [hq, Option.getD_some] at hpy
    have hqd : q = (vs.scenes.get ⟨n.1, hl2⟩).duration_seconds := by
      simpa [pyFloat] using hpy
    have hge := hf.2.2.2.2.1
    rw [← hqd] at hge
    exact absurd hlt (not_lt.mpr hge)

/-- Witness for C10: the document with scene duration 0.05 is
rejected. -/
theorem generate_small_duration_witness :
    ∃ err, generate docSmallDuration = .error err := by
  refine generate_small_duration_rejected docSmallDuration _ rfl ?_
  exact ⟨{ dialogue := some "A", duration_seconds := some (.jnum (1/20)) },
    by simp [docSmallDuration], 1/20, rfl, by norm_num⟩

/-- C5 (amended): the built scene's duration is 3.0 exactly when the
`duration_seconds` field is absent; a present value is coerced with
`float()` and kept when coercible, while a non-coercible value makes
the build fail with the coercion error — the document is rejected, not
accepted with the 3.0 default. -/
theorem buildScene_duration_policy (idx : Nat) (e : RawScene) :
    (e.duration_seconds = none →
      ∃ s, buildScene idx e = .ok s ∧ s.duration_seconds = 3) ∧
    (∀ v q, e.duration_seconds = some v → pyFloat v = some q → ¬ q < 1/10 →
      ∃ s, buildScene idx e = .ok s ∧ s.duration_seconds = q) ∧
    (∀ v, e.duration_seconds = some v → pyFloat v = none →
      buildScene idx e = .error .badDurationValue) := by
  refine ⟨fun h => ?_, fun v q hv hp hq => ?_, fun v hv hp => ?_⟩
  · unfold buildScene
    simp only [h, Option.getD_none]
    rw [show pyFloat (.jnum 3) = some (3:ℚ) from rfl]
    simp only []
    rw [if_neg (by norm_num : ¬ (3:ℚ) < 1/10)]
    exact ⟨_, rfl, rfl⟩
  · unfold buildScene
    simp only [hv, Option.getD_some, hp]
    rw [if_neg hq]
    exact ⟨_, rfl, rfl⟩
  · unfold buildScene
    simp only [hv, Option.getD_some, hp]

/-- Witness for C5 (amended): an absent duration gives 3.0, the numeric
value 2.5 is kept, and the non-numeric value `"fast"` fails the
build. -/
theorem buildScene_duration_policy_witness :
    (∃ s, buildScene 0 { dialogue := some "A" } = .ok s ∧ s.duration_seconds = 3) ∧
    (∃ s, buildScene 1 { dialogue := some "B", duration_seconds := some (.jnum (5/2)) } = .ok s ∧
      s.duration_seconds = 5/2) ∧
    buildScene 2 { dialogue := some "C", duration_seconds := some (.jstr "fast") } =
      .error .badDurationValue :=
  ⟨(buildScene_duration_policy 0 _).1 rfl,
   (buildScene_duration_policy 1 _).2.1 (.jnum (5/2)) (5/2) rfl rfl (by norm_num),
   (buildScene_duration_policy 2 _).2.2 (.jstr "fast") rfl (by decide)⟩

/-- Counterexample for C5 as stated: the document whose scene carries
the non-numeric duration `"fast"` is not accepted with duration 3.0 —
the Reconciler rejects it with the coercion error. -/
theorem generate_nonnumeric_duration_counterexample :
    generate docBadDuration = .error .badDurationValue := rfl

/-- Rebuilding a serialized scene reproduces the scene exactly. -/
theorem buildScene_sceneToRaw (idx : Nat) (s : Scene) (h : 1/10 ≤ s.duration_seconds) :
    buildScene idx (sceneToRaw s) = .ok s := by
  unfold buildScene sceneToRaw
  simp only [Option.getD_some]
  simp only [show pyFloat (.jnum s.duration_seconds) = some s.duration_seconds from rfl]
  rw [if_neg (not_lt.mpr h)]

/-- Rebuilding a serialized scene list reproduces the list exactly. -/
theorem buildScenes_map_sceneToRaw (l : List Scene) :
    ∀ k, (∀ s ∈ l, 1/10 ≤ s.duration_seconds) →
      buildScenes k (l.map sceneToRaw) = .ok l := by
  induction l with
  | nil => intro k _; rfl
  | cons s rest ih =>
      intro k hall
      rw [List.map_cons]
      unfold buildScenes
      simp only [buildScene_sceneToRaw k s (hall s (by simp)),
        ih (k + 1) (fun t ht => hall t (by simp [ht]))]

/-- Every scene of a successful build satisfies the 0.1 lower bound on
its duration. -/
theorem buildScenes_ok_durations {raw : List RawScene} {k : Nat} {l : List Scene}
    (h : buildScenes k raw = .ok l) :
    ∀ s ∈ l, 1/10 ≤ s.duration_seconds := by
  intro s hs
  obtain ⟨n, hn⟩ := List.mem_iff_get.mp hs
  obtain ⟨hlen, hget⟩ := buildScenes_ok_corr raw k l h
  have hi : n.1 < raw.length := by rw [← hlen]; exact n.2
  have hf := buildScene_ok_fields (hget n.1 hi n.2)
  rw [show l.get ⟨n.1, n.2⟩ = s from hn] at hf
  exact hf.2.2.2.2.1

/-- The scene-duration sum of a nonempty scene list whose durations are
all at least 0.1 is itself at least 0.1. -/
theorem sceneDurationSum_pos {l : List Scene} (hne : l ≠ [])
    (h : ∀ s ∈ l, 1/10 ≤ s.duration_seconds) : 1/10 ≤ sceneDurationSum l := by
  cases l with
  | nil => exact absurd rfl hne
  | cons s rest =>
      have h0 : 0 ≤ sceneDurationSum rest := by
        apply List.sum_nonneg
        intro x hx
        simp only [List.mem_map] at hx
        obtain ⟨t, ht, rfl⟩ := hx
        exact le_trans (by norm_num) (h t (by simp [ht]))
      have hs := h s (by simp)
      unfold sceneDurationSum at h0 ⊢
      rw [List.map_cons, List.sum_cons]
      linarith

/-- Introduction rule for a successful reconciliation whose declared
total is within tolerance. -/
theorem generate_ok_intro (doc : RawDoc) (raw : List RawScene) (title : String)
    (scenes : List Scene) (total : ℚ)
    (hs : doc.scenes = some raw) (ht : doc.title = some title)
    (hb : buildScenes 0 raw = .ok scenes)
    (hp : pyFloat (doc.total_duration_seconds.getD (.jnum (sceneDurationSum scenes))) = some total)
    (hne : scenes ≠ []) (hto : ¬ total < 1/10)
    (hvd : |total - sceneDurationSum scenes| < 1/10) :
    generate doc = .ok ⟨title, scenes, total⟩ := by
  unfold generate
  simp only [hs, ht, hb, hp]
  rw [if_neg hne, if_neg hto,
    if_pos (show (VideoScript.mk title scenes total).validate_duration = true by
      simpa [VideoScript.validate_duration] using hvd)]

/-- C9: reconciliation is idempotent — serializing a reconciled script
back to a raw document and reconciling again returns the identical
script, in particular identical per-scene durations and total. -/
theorem generate_idempotent (doc : RawDoc) (vs : VideoScript)
    (h : generate doc = .ok vs) :
    generate (scriptToRaw vs) = .ok vs := by
  obtain ⟨raw, hs, ht, hb, hne, total, hp, hge, htot⟩ := generate_ok_inv h
  have hdur : ∀ s ∈ vs.scenes, 1/10 ≤ s.duration_seconds := buildScenes_ok_durations hb
  have htol : |vs.total_duration_seconds - sceneDurationSum vs.scenes| < 1/10 := by
    by_cases hd : |total - sceneDurationSum vs.scenes| < 1/10
    · rw [htot, if_pos hd]; exact hd
    · rw [htot, if_neg hd, sub_self, abs_zero]; norm_num
  have hto2 : ¬ vs.total_duration_seconds < 1/10 := by
    push_neg
    by_cases hd : |total - sceneDurationSum vs.scenes| < 1/10
    · rw [htot, if_pos hd]; exact hge
    · rw [htot, if_neg hd]; exact sceneDurationSum_pos hne hdur
  exact generate_ok_intro (scriptToRaw vs) (vs.scenes.map sceneToRaw) vs.title
    vs.scenes vs.total_duration_seconds rfl rfl
    (buildScenes_map_sceneToRaw vs.scenes 0 hdur) rfl hne hto2 htol

/-- Witness for C9: re-reconciling the reconciled sparse script returns
it unchanged. -/
theorem generate_idempotent_witness :
    generate (scriptToRaw scriptSparse) = .ok scriptSparse := by
  have hgen : generate docSparse = .ok scriptSparse := by
    norm_num [generate, docSparse, scriptSparse, buildScenes, buildScene, pyFloat,
      sceneDurationSum, VideoScript.validate_duration, abs_lt, List.cons_ne_nil]
  exact generate_idempotent docSparse scriptSparse hgen

/-- Background keys of a successful binding: one per scene number
occurring in the list. -/
theorem mem_boundAssets_bg (p : Providers) (scenes : List Scene) (n : ℤ) :
    AssetKey.bg n ∈ boundAssets p scenes ↔ ∃ s ∈ scenes, s.scene_number = n := by
  unfold boundAssets
  rw [List.mem_flatMap]
  constructor
  · rintro ⟨s, hs, hmem⟩
    rcases List.mem_cons.mp hmem with h | h
    · injection h with h'
      exact ⟨s, hs, h'.symm⟩
    · by_cases ha : p.audioOk s.scene_number = true
      · rw [if_pos ha] at h
        cases List.mem_singleton.mp h
      · rw [if_neg ha] at h
        cases h
  · rintro ⟨s, hs, rfl⟩
    exact ⟨s, hs, List.mem_cons_self _ _⟩

/-- Audio keys of a successful binding: exactly the scene numbers whose
audio synthesis succeeds. -/
theorem mem_boundAssets_audio (p : Providers) (scenes : List Scene) (n : ℤ) :
    AssetKey.audio n ∈ boundAssets p scenes ↔
      ∃ s ∈ scenes, s.scene_number = n ∧ p.audioOk n = true := by
  unfold boundAssets
  rw [List.mem_flatMap]
  constructor
  · rintro ⟨s, hs, hmem⟩
    rcases List.mem_cons.mp hmem with h | h
    · cases h
    · by_cases ha : p.audioOk s.scene_number = true
      · rw [if_pos ha] at h
        have h' := List.mem_singleton.mp h
        injection h' with h''
        subst h''
        exact ⟨s, hs, rfl, ha⟩
      · rw [if_neg ha] at h
        cases h
  · rintro ⟨s, hs, rfl, ha⟩
    refine ⟨s, hs, ?_⟩
    rw [if_pos ha]
    exact List.mem_cons_of_mem _ (List.mem_singleton.mpr rfl)

/-- Warnings of a successful binding: exactly the scene numbers whose
audio synthesis fails. -/
theorem mem_audioWarnings (p : Providers) (scenes : List Scene) (n : ℤ) :
    n ∈ audioWarnings p scenes ↔
      ∃ s ∈ scenes, s.scene_number = n ∧ p.audioOk n = false := by
  unfold audioWarnings
  rw [List.mem_map]
  constructor
  · rintro ⟨s, hs, rfl⟩
    obtain ⟨hmem, hfail⟩ := List.mem_filter.mp hs
    exact ⟨s, hmem, rfl, by simpa using hfail⟩
  · rintro ⟨s, hs, rfl, ha⟩
    exact ⟨s, List.mem_filter.mpr ⟨hs, by simpa using ha⟩, rfl⟩

/-- When every background acquisition succeeds, the binding loop
produces exactly the closed-form assets and warnings. -/
theorem bindAssets_ok_eq (p : Providers) (scenes : List Scene)
    (hbg : ∀ s ∈ scenes, p.bgOk s.scene_number = true) :
    bindAssets p scenes = .ok ⟨boundAssets p scenes, audioWarnings p scenes⟩ := by
  induction scenes with
  | nil => rfl
  | cons s rest ih =>
      have hr := ih (fun t ht => hbg t (by simp [ht]))
      unfold bindAssets
      rw [if_pos (hbg s (by simp))]
      simp only [hr]
      by_cases ha : p.audioOk s.scene_number = true
      · rw [if_pos ha]
        simp [boundAssets, audioWarnings, ha]
      · rw [if_neg ha]
        simp [boundAssets, audioWarnings, ha, Bool.not_eq_true] at *

/-- A failing background acquisition aborts the binding loop with the
failing scene's number. -/
theorem bindAssets_error_first (p : Providers) (scenes : List Scene)
    (hex : ∃ s ∈ scenes, p.bgOk s.scene_number = false) :
    ∃ n, bindAssets p scenes = .error n ∧
      ∃ s ∈ scenes, s.scene_number = n ∧ p.bgOk n = false := by
  induction scenes with
  | nil => simp at hex
  | cons s rest ih =>
      by_cases hb : p.bgOk s.scene_number = true
      · have hex2 : ∃ t ∈ rest, p.bgOk t.scene_number = false := by
          rcases hex with ⟨t, ht, hf⟩
          rcases List.mem_cons.mp ht with rfl | ht2
          · rw [hb] at hf; cases hf
          · exact ⟨t, ht2, hf⟩
        obtain ⟨n, hn, t, htr, htn, htf⟩ := ih hex2
        refine ⟨n, ?_, t, by simp [htr], htn, htf⟩
        unfold bindAssets
        rw [if_pos hb]
        simp only [hn]
      · refine ⟨s.scene_number, ?_, s, by simp, rfl, by simpa using hb⟩
        unfold bindAssets
        rw [if_neg hb]

/-- C3: a background failure for any scene aborts the binding loop with
an error carrying that scene's number, whereas when all backgrounds
succeed the loop returns assets for every scene, records a warning for
each scene whose audio fails, leaves every other scene's asset binding
unaffected (each scene's clip depends only on its own audio outcome),
and the Compositor builds the audio-failed scene's unit with no audio
track. -/
theorem asset_binding_asymmetry (p : Providers) (scenes : List Scene) :
    ((∃ s ∈ scenes, p.bgOk s.scene_number = false) →
      ∃ n, bindAssets p scenes = .error n ∧
        ∃ s ∈ scenes, s.scene_number = n ∧ p.bgOk n = false) ∧
    ((∀ s ∈ scenes, p.bgOk s.scene_number = true) →
      ∃ r, bindAssets p scenes = .ok r ∧
        (∀ s ∈ scenes, p.audioOk s.scene_number = false → s.scene_number ∈ r.warnings) ∧
        (∀ s ∈ scenes, p.audioOk s.scene_number = false → ∀ al,
          createSceneClip al r.assets s = .ok ⟨s.scene_number, s.duration_seconds, none⟩) ∧
        (∀ s ∈ scenes, p.audioOk s.scene_number = true → ∀ al,
          createSceneClip al r.assets s =
            .ok ⟨s.scene_number, s.duration_seconds,
                 some (audioMatchedLength (al s.scene_number) s.duration_seconds)⟩)) := by
  constructor
  · exact bindAssets_error_first p scenes
  · intro hbg
    refine ⟨⟨boundAssets p scenes, audioWarnings p scenes⟩,
      bindAssets_ok_eq p scenes hbg, ?_, ?_, ?_⟩
    · intro s hs ha
      exact (mem_audioWarnings p scenes _).mpr ⟨s, hs, rfl, ha⟩
    · intro s hs ha al
      have hbgmem : AssetKey.bg s.scene_number ∈ boundAssets p scenes :=
        (mem_boundAssets_bg p scenes _).mpr ⟨s, hs, rfl⟩
      have haudio : AssetKey.audio s.scene_number ∉ boundAssets p scenes := by
        intro hmem
        obtain ⟨t, ht, htn, hok⟩ := (mem_boundAssets_audio p scenes _).mp hmem
        rw [ha] at hok
        cases hok
      unfold createSceneClip
      rw [if_pos hbgmem, if_neg haudio]
    · intro s hs ha al
      have hbgmem : AssetKey.bg s.scene_number ∈ boundAssets p scenes :=
        (mem_boundAssets_bg p scenes _).mpr ⟨s, hs, rfl⟩
      have haudio : AssetKey.audio s.scene_number ∈ boundAssets p scenes :=
        (mem_boundAssets_audio p scenes _).mpr ⟨s, hs, rfl, ha⟩
      unfold createSceneClip
      rw [if_pos hbgmem, if_pos haudio]

/-- Witness for C3: with a failing background for scene 2 the binding
aborts naming scene 2; with a failing audio for scene 2 only, binding
succeeds, scene 2 is warned and gets a silent unit, and scene 1 keeps
its time-matched audio track. -/
theorem asset_binding_asymmetry_witness :
    (∃ n, bindAssets provBgFail2 [sceneW1, sceneW2] = .error n ∧
      ∃ s ∈ [sceneW1, sceneW2], s.scene_number = n ∧ provBgFail2.bgOk n = false) ∧
    (∃ r, bindAssets provAudioFail2 [sceneW1, sceneW2] = .ok r ∧
      sceneW2.scene_number ∈ r.warnings ∧
      createSceneClip (fun _ => 1) r.assets sceneW2 =
        .ok ⟨sceneW2.scene_number, sceneW2.duration_seconds, none⟩ ∧
      createSceneClip (fun _ => 1) r.assets sceneW1 =
        .ok ⟨sceneW1.scene_number, sceneW1.duration_seconds,
             some (audioMatchedLength 1 sceneW1.duration_seconds)⟩) := by
  constructor
  · exact (asset_binding_asymmetry provBgFail2 [sceneW1, sceneW2]).1
      ⟨sceneW2, by simp, by decide⟩
  · obtain ⟨r, hok, hwarn, hsilent, hsound⟩ :=
      (asset_binding_asymmetry provAudioFail2 [sceneW1, sceneW2]).2
        (by intro s _; rfl)
    exact ⟨r, hok, hwarn sceneW2 (by simp) (by decide),
      hsilent sceneW2 (by simp) (by decide) _,
      hsound sceneW1 (by simp) (by decide) (fun _ => 1)⟩

/-- Python `%` by 1 on an integer divided by 144 reduces the numerator
modulo 144. -/
theorem qmod_intCast_div (k : ℤ) :
    qmod ((k : ℚ) / 144) 1 = ((k % 144 : ℤ) : ℚ) / 144 := by
  unfold qmod
  rw [div_one]
  rw [show ((144:ℚ)) = ((144:ℕ):ℚ) by norm_num, Rat.floor_intCast_div_natCast k 144]
  rw [Int.emod_def]
  push_cast
  ring

/-- The normalized hue of the golden-angle color is the residue
`55 * scene_number mod 144` over 144 (since `137.5 / 360 = 55 / 144`). -/
theorem goldenHue_eq (n : ℤ) :
    qmod ((n : ℚ) * (275/2)) 360 / 360 = ((55 * n % 144 : ℤ) : ℚ) / 144 := by
  unfold qmod
  rw [show (n : ℚ) * (275/2) / 360 = ((55 * n : ℤ) : ℚ) / ((144:ℕ):ℚ) by push_cast; ring,
    Rat.floor_intCast_div_natCast (55 * n) 144]
  rw [Int.emod_def]
  push_cast
  ring

/-- The quantized channel value of `colorsys._v` at `m1 = 3/25`,
`m2 = 12/25` and a hue of the form `k/144` equals the integer mirror
`greenQ` at the residue `k mod 144`. -/
theorem floor_hlsV_eval (k : ℤ) :
    ⌊hlsV (3/25) (12/25) ((k : ℚ) / 144) * 255⌋ = greenQ (k % 144) := by
  unfold hlsV
  rw [qmod_intCast_div k]
  have h0 : 0 ≤ k % 144 := Int.emod_nonneg k (by norm_num)
  have h1 : k % 144 < 144 := Int.emod_lt_of_pos k (by norm_num)
  set r := k % 144 with hr
  unfold greenQ
  by_cases hc1 : r < 24
  · have hq1 : (r : ℚ) < 24 := by exact_mod_cast hc1
    rw [if_pos (show ((r:ℤ):ℚ)/144 < 1/6 by
      rw [div_lt_iff₀ (show (0:ℚ) < 144 by norm_num)]; linarith)]
    rw [show (3/25 + (12/25 - 3/25) * (((r:ℤ):ℚ)/144) * 6) * 255
        = ((1224 + 153 * r : ℤ) : ℚ) / ((40:ℕ):ℚ) by push_cast; ring]
    rw [Rat.floor_intCast_div_natCast, if_pos hc1]
    norm_num
  · have hq1 : (24 : ℚ) ≤ (r:ℚ) := by exact_mod_cast not_lt.mp hc1
    rw [if_neg (show ¬ ((r:ℤ):ℚ)/144 < 1/6 by
      rw [not_lt, le_div_iff₀ (show (0:ℚ) < 144 by norm_num)]; linarith)]
    by_cases hc2 : r < 72
    · have hq2 : (r : ℚ) < 72 := by exact_mod_cast hc2
      rw [if_pos (show ((r:ℤ):ℚ)/144 < 1/2 by
        rw [div_lt_iff₀ (show (0:ℚ) < 144 by norm_num)]; linarith)]
      rw [show (12/25 : ℚ) * 255 = ((612:ℤ):ℚ)/((5:ℕ):ℚ) by norm_num]
      rw [Rat.floor_intCast_div_natCast, if_neg hc1, if_pos hc2]
      decide
    · have hq2 : (72 : ℚ) ≤ (r:ℚ) := by exact_mod_cast not_lt.mp hc2
      rw [if_neg (show ¬ ((r:ℤ):ℚ)/144 < 1/2 by
        rw [not_lt, le_div_iff₀ (show (0:ℚ) < 144 by norm_num)]; linarith)]
      by_cases hc3 : r < 96
      · have hq3 : (r : ℚ) < 96 := by exact_mod_cast hc3
        rw [if_pos (show ((r:ℤ):ℚ)/144 < 2/3 by
          rw [div_lt_iff₀ (show (0:ℚ) < 144 by norm_num)]; linarith)]
        rw [show (3/25 + (12/25 - 3/25) * (2/3 - ((r:ℤ):ℚ)/144) * 6) * 255
            = ((15912 - 153 * r : ℤ) : ℚ) / ((40:ℕ):ℚ) by push_cast; ring]
        rw [Rat.floor_intCast_div_natCast, if_neg hc1, if_neg hc2, if_pos hc3]
        norm_num
      · have hq3 : (96 : ℚ) ≤ (r:ℚ) := by exact_mod_cast not_lt.mp hc3
        rw [if_neg (show ¬ ((r:ℤ):ℚ)/144 < 2/3 by
          rw [not_lt, le_div_iff₀ (show (0:ℚ) < 144 by norm_num)]; linarith)]
        rw [show (3/25 : ℚ) * 255 = ((153:ℤ):ℚ)/((5:ℕ):ℚ) by norm_num]
        rw [Rat.floor_intCast_div_natCast, if_neg hc1, if_neg hc2, if_neg hc3]
        decide

/-- The golden-angle color equals its integer mirror at the hue residue
`55 * scene_number mod 144`. -/
theorem goldenBgColor_eq_colorQ (n : ℤ) :
    goldenBgColor n = colorQ (55 * n % 144) := by
  have h0 : 0 ≤ 55 * n % 144 := Int.emod_nonneg _ (by norm_num)
  have h1 : 55 * n % 144 < 144 := Int.emod_lt_of_pos _ (by norm_num)
  simp only [goldenBgColor, hls_to_rgb,
    if_neg (show ¬ (6/10 : ℚ) = 0 by norm_num),
    if_pos (show (3/10 : ℚ) ≤ 1/2 by norm_num), goldenHue_eq n]
  set r := 55 * n % 144 with hr
  rw [show (3/10:ℚ) * (1 + 6/10) = 12/25 by norm_num]
  rw [show 2*(3/10:ℚ) - 12/25 = 3/25 by norm_num]
  unfold colorQ
  simp only [Prod.mk.injEq]
  refine ⟨?_, ?_, ?_⟩
  · rw [show ((r:ℤ):ℚ)/144 + 1/3 = ((r + 48 : ℤ):ℚ)/144 by push_cast; ring]
    exact floor_hlsV_eval (r + 48)
  · rw [show greenQ r = greenQ (r % 144) by rw [Int.emod_eq_of_lt h0 h1]]
    exact floor_hlsV_eval r
  · rw [show ((r:ℤ):ℚ)/144 - 1/3 = ((r - 48 : ℤ):ℚ)/144 by push_cast; ring]
    rw [show (r + 96) % 144 = (r - 48) % 144 by omega]
    exact floor_hlsV_eval (r - 48)

/-- Finite check over the 144 hue residues: consecutive residues (55
apart mod 144) always give distinct quantized colors. -/
theorem colorQ_consecutive_check :
    ∀ m : ℕ, m < 144 → colorQ m ≠ colorQ ((m + 55) % 144) := by decide

/-- Consecutive scene numbers always receive distinct golden-angle
colors. -/
theorem goldenBgColor_consecutive_distinct (n : ℤ) :
    goldenBgColor n ≠ goldenBgColor (n + 1) := by
  rw [goldenBgColor_eq_colorQ n, goldenBgColor_eq_colorQ (n + 1)]
  have h0 : 0 ≤ 55 * n % 144 := Int.emod_nonneg _ (by norm_num)
  have h1 : 55 * n % 144 < 144 := Int.emod_lt_of_pos _ (by norm_num)
  have h2 : 55 * (n + 1) % 144 = ((55 * n % 144) + 55) % 144 := by omega
  rw [h2]
  have hm := colorQ_consecutive_check (55 * n % 144).toNat (by omega)
  rwa [Int.toNat_of_nonneg h0] at hm

/-- C7 (amended): whenever the color argument passed to the background
request is Python-falsy (`None` or the empty string), the Asset Binder
uses the deterministic golden-angle color — hue
`(scene_number * 137.5) mod 360`, saturation 0.6, lightness 0.3 — and
consecutive scene numbers receive distinct colors.  (Scenes reconciled
without an explicit color carry the `"#000000"` default, which is
truthy, so through the pipeline those scenes take the hex branch, not
this golden-angle branch; see the counterexample.) -/
theorem golden_color_spec (n : ℤ) (color : Option String)
    (h : pyTruthy color = false) :
    determineBgColor n color = some (goldenBgColor n) ∧
    goldenBgColor n ≠ goldenBgColor (n + 1) := by
  constructor
  · unfold determineBgColor
    rw [if_neg (by simp [h])]
  · exact goldenBgColor_consecutive_distinct n

/-- Witness for C7 (amended): scene 5 with no color argument gets the
golden-angle color, distinct from scene 6's. -/
theorem golden_color_spec_witness :
    determineBgColor 5 none = some (goldenBgColor 5) ∧
    goldenBgColor 5 ≠ goldenBgColor 6 := by
  have h := golden_color_spec 5 none rfl
  exact ⟨h.1, by simpa using h.2⟩

/-- Counterexample for C7 as stated: a scene whose raw entry gives no
background color is reconciled with the default `"#000000"`, and the
Asset Binder resolves that truthy value through the hex branch to
black, not to the golden-angle color of its scene number. -/
theorem golden_pipeline_counterexample :
    (∃ s, buildScene 0 { dialogue := some "A" } = .ok s ∧
      s.background_color = some "#000000") ∧
    determineBgColor 1 (some "#000000") = some (0, 0, 0) ∧
    goldenBgColor 1 ≠ (0, 0, 0) := by
  refine ⟨?_, by decide, ?_⟩
  · refine ⟨⟨1, "A", "A", 3, some "#000000", none⟩, ?_, rfl⟩
    norm_num [buildScene, pyFloat]
  · rw [goldenBgColor_eq_colorQ]
    decide

end StoryToReel
